import Mathlib

/-!
Verification of `server/scripts/discover_api.py`.

The script iterates over a hardcoded list of HuggingFace space identifiers;
for each it prints a separator header, constructs a `gradio_client.Client`,
and prints `client.view_api()`.  Any `Exception` raised inside the loop body
is caught and reported as `Failed to connect to <space>: <e>`; errors outside
the `Exception` hierarchy (e.g. `KeyboardInterrupt`) propagate.

We embed the script shallowly: the external collaborator is a pair of
response functions, the console transcript is the list of arguments passed
to `print`, and an uncaught error is an `Option PyError` paired with the
transcript produced before it escaped.
-/

namespace DiscoverApi

/-- An error raised by the collaborator.  `exn` is an instance of Python's
`Exception` class (caught by the script's `except Exception` clause);
`nonExn` is a `BaseException` outside the `Exception` hierarchy, such as
`KeyboardInterrupt`, which the clause does not catch. -/
inductive PyError where
  | exn (msg : String)
  | nonExn (msg : String)
deriving DecidableEq, Repr

/-- The external collaborator (the `gradio_client` library): `connect`
models the constructor `Client(space)` and `describe` models
`client.view_api()`.  `H` is the (opaque) type of client handles. -/
structure Collaborator (H : Type) where
  connect : String → Except PyError H
  describe : H → Except PyError String

/-- The string `'='*60` used as a visual separator. -/
def sepLine : String := String.mk (List.replicate 60 '=')

/-- The three header prints at the top of each loop iteration:
`print(f"\n{sep}")`, `print(f"Discovering endpoints for: {space}")`,
`print(sep)`.  Each list element is the argument of one `print` call. -/
def headerLines (space : String) : List String :=
  ["\n" ++ sepLine, "Discovering endpoints for: " ++ space, sepLine]

/-- The error message printed by the `except Exception as e` handler:
`f"Failed to connect to {space}: {e}"`. -/
def errorLine (space msg : String) : String :=
  "Failed to connect to " ++ space ++ ": " ++ msg

/-- One iteration of the `for space in spaces` loop, i.e. the `try` body and
its `except Exception` handler.  Returns the transcript printed during the
iteration and, when an error outside the `Exception` hierarchy escaped the
`try` block, that error. -/
def processSpace {H : Type} (c : Collaborator H) (space : String) :
    List String × Option PyError :=
  match c.connect space with
  | .ok h =>
      match c.describe h with
      | .ok schema => (headerLines space ++ [schema], none)
      | .error (.exn m) => (headerLines space ++ [errorLine space m], none)
      | .error (.nonExn m) => (headerLines space, some (.nonExn m))
  | .error (.exn m) => (headerLines space ++ [errorLine space m], none)
  | .error (.nonExn m) => (headerLines space, some (.nonExn m))

/-- The `discover_endpoints` function: iterate over the identifier list,
running one iteration per identifier; an uncaught (non-`Exception`) error
aborts the loop and propagates. -/
def discover_endpoints {H : Type} (c : Collaborator H) :
    List String → List String × Option PyError
  | [] => ([], none)
  | space :: rest =>
      match processSpace c space with
      | (out, some e) => (out, some e)
      | (out, none) =>
          let r := discover_endpoints c rest
          (out ++ r.1, r.2)

/-- The hardcoded identifier list of the script. -/
def spaces : List String :=
  ["innoai/Edge-TTS-Text-to-Speech", "k2-fsa/text-to-speech"]

/-- A full run of the script (`discover_endpoints()` from
`if __name__ == "__main__"`). -/
def run {H : Type} (c : Collaborator H) : List String × Option PyError :=
  discover_endpoints c spaces

/-- The process exit code for a run over list `l`: 0 on normal termination,
nonzero when an uncaught error escaped `discover_endpoints`. -/
def exitCode {H : Type} (c : Collaborator H) (l : List String) : Nat :=
  match (discover_endpoints c l).2 with
  | none => 0
  | some _ => 1

/-- The collaborator raises only errors of class `Exception` (never a
`KeyboardInterrupt`-like `BaseException`). -/
def noFatal {H : Type} (c : Collaborator H) : Prop :=
  (∀ s m, c.connect s ≠ .error (.nonExn m)) ∧
  (∀ h m, c.describe h ≠ .error (.nonExn m))

/-- Identifier `s` fails with `Exception` message `m`: either the connection
itself raises, or the connection succeeds and schema retrieval raises. -/
def failsWithExn {H : Type} (c : Collaborator H) (s m : String) : Prop :=
  c.connect s = .error (.exn m) ∨
  ∃ h, c.connect s = .ok h ∧ c.describe h = .error (.exn m)

theorem processSpace_snd_eq_none {H : Type} (c : Collaborator H) (s : String)
    (hc : noFatal c) : (processSpace c s).2 = none := by
  unfold processSpace
  cases hcon : c.connect s with
  | ok h =>
      cases hdes : c.describe h with
      | ok sch => simp [hdes]
      | error e =>
          cases e with
          | exn m => simp [hdes]
          | nonExn m => exact absurd hdes (hc.2 h m)
  | error e =>
      cases e with
      | exn m => simp
      | nonExn m => exact absurd hcon (hc.1 s m)

theorem discover_eq_join {H : Type} (c : Collaborator H) (hc : noFatal c) :
    ∀ l : List String,
      discover_endpoints c l = ((l.map fun s => (processSpace c s).1).flatten, none)
  | [] => by simp [discover_endpoints]
  | s :: rest => by
      have h2 := processSpace_snd_eq_none c s hc
      unfold discover_endpoints
      cases hp : processSpace c s with
      | mk out err =>
          cases err with
          | none =>
              simp only [List.map_cons, List.flatten_cons]
              rw [discover_eq_join c hc rest]
              simp [hp]
          | some e => rw [hp] at h2; simp at h2

theorem processSpace_connect_exn {H : Type} (c : Collaborator H) (s m : String)
    (hcon : c.connect s = .error (.exn m)) :
    processSpace c s = (headerLines s ++ [errorLine s m], none) := by
  unfold processSpace; rw [hcon]

theorem processSpace_describe_exn {H : Type} (c : Collaborator H) (s : String)
    (h : H) (m : String) (hcon : c.connect s = .ok h)
    (hdes : c.describe h = .error (.exn m)) :
    processSpace c s = (headerLines s ++ [errorLine s m], none) := by
  simp [processSpace, hcon, hdes]

theorem processSpace_ok {H : Type} (c : Collaborator H) (s : String) (h : H)
    (txt : String) (hcon : c.connect s = .ok h) (hdes : c.describe h = .ok txt) :
    processSpace c s = (headerLines s ++ [txt], none) := by
  simp [processSpace, hcon, hdes]

theorem processSpace_take_header {H : Type} (c : Collaborator H) (s : String) :
    (processSpace c s).1.take 3 = headerLines s := by
  unfold processSpace
  cases hcon : c.connect s with
  | ok h =>
      cases hdes : c.describe h with
      | ok sch => simp [hdes, headerLines]
      | error e => cases e <;> simp [hdes, headerLines]
  | error e => cases e <;> simp [headerLines]

theorem processSpace_congr {H : Type} (c₁ c₂ : Collaborator H) (s : String)
    (hcon : c₁.connect s = c₂.connect s)
    (hdes : ∀ h, c₁.describe h = c₂.describe h) :
    processSpace c₁ s = processSpace c₂ s := by
  unfold processSpace
  rw [hcon]
  cases c₂.connect s with
  | ok h => simp [hdes]
  | error e => cases e <;> rfl

theorem discover_cons_completed {H : Type} (c : Collaborator H) (s : String)
    (rest : List String) (hdone : (processSpace c s).2 = none) :
    discover_endpoints c (s :: rest) =
      ((processSpace c s).1 ++ (discover_endpoints c rest).1,
        (discover_endpoints c rest).2) := by
  rw [discover_endpoints]
  cases hp : processSpace c s with
  | mk out err =>
      rw [hp] at hdone
      cases err with
      | some e => simp at hdone
      | none => simp

/-- C1: if connecting to an identifier in the list (or retrieving its
schema) raises an `Exception` with message `m`, the transcript contains the
error line naming that identifier and the failure detail; the full
transcript is still the concatenation of one section per identifier of the
list, in order (so every subsequent identifier is processed), and no error
is re-raised. -/
theorem C1_failure_logged_loop_continues {H : Type} (c : Collaborator H)
    (l : List String) (s m : String) (hc : noFatal c) (hs : s ∈ l)
    (hf : failsWithExn c s m) :
    errorLine s m ∈ (discover_endpoints c l).1 ∧
    (discover_endpoints c l).1 = (l.map fun t => (processSpace c t).1).flatten ∧
    (discover_endpoints c l).2 = none := by
  have hj := discover_eq_join c hc l
  refine ⟨?_, by rw [hj], by rw [hj]⟩
  rw [hj]
  have hsec : errorLine s m ∈ (processSpace c s).1 := by
    cases hf with
    | inl hcon => rw [processSpace_connect_exn c s m hcon]; simp
    | inr hex =>
        obtain ⟨h, hcon, hdes⟩ := hex
        rw [processSpace_describe_exn c s h m hcon hdes]; simp
  exact List.mem_flatten.2 ⟨(processSpace c s).1, List.mem_map_of_mem _ hs, hsec⟩

/-- C2: the run produces exactly one labeled output section per configured
identifier, in list order: the transcript is the in-order concatenation of
one section per identifier, and each identifier's section begins with the
visual separator plus that identifier's name (its first three printed
strings are exactly `headerLines`). -/
theorem C2_one_labeled_section_per_identifier {H : Type} (c : Collaborator H)
    (hc : noFatal c) (s : String) (_hs : s ∈ spaces) :
    (run c).1 = (spaces.map fun t => (processSpace c t).1).flatten ∧
    (processSpace c s).1.take 3 = headerLines s := by
  refine ⟨?_, processSpace_take_header c s⟩
  unfold run
  rw [discover_eq_join c hc spaces]

/-- C3: if both the connection and the schema retrieval for identifier `s`
succeed, the section for `s` is its header followed by the schema text
returned by `describe`, verbatim, and that text appears in the run's
transcript. -/
theorem C3_schema_printed_verbatim {H : Type} (c : Collaborator H)
    (l : List String) (s txt : String) (h : H) (hc : noFatal c) (hs : s ∈ l)
    (hcon : c.connect s = .ok h) (hdes : c.describe h = .ok txt) :
    (processSpace c s).1 = headerLines s ++ [txt] ∧
    txt ∈ (discover_endpoints c l).1 := by
  have hps := processSpace_ok c s h txt hcon hdes
  refine ⟨by rw [hps], ?_⟩
  rw [discover_eq_join c hc l]
  refine List.mem_flatten.2 ⟨(processSpace c s).1, List.mem_map_of_mem _ hs, ?_⟩
  rw [hps]; simp

/-- C4: whenever every failure the collaborator raises is of class
`Exception` (no matter how many identifiers fail, up to all of them), no
error escapes `discover_endpoints` and the process terminates normally with
exit code 0. -/
theorem C4_always_exits_zero {H : Type} (c : Collaborator H)
    (l : List String) (hc : noFatal c) :
    (discover_endpoints c l).2 = none ∧ exitCode c l = 0 := by
  have hj := discover_eq_join c hc l
  refine ⟨by rw [hj], ?_⟩
  unfold exitCode
  rw [hj]

/-- C5: on an empty identifier list the runner prints nothing, no error
escapes, and the process exits normally with code 0. -/
theorem C5_empty_list_no_output {H : Type} (c : Collaborator H) :
    discover_endpoints c [] = ([], none) ∧ exitCode c [] = 0 :=
  ⟨rfl, rfl⟩

/-- C6: the runner is a deterministic function of the identifier list and
the collaborator's responses: two collaborators giving the same `connect`
and `describe` responses yield identical transcripts and identical
propagated errors on every list. -/
theorem C6_deterministic {H : Type} (c₁ c₂ : Collaborator H) (l : List String)
    (hcon : ∀ s, c₁.connect s = c₂.connect s)
    (hdes : ∀ h, c₁.describe h = c₂.describe h) :
    discover_endpoints c₁ l = discover_endpoints c₂ l := by
  have hps : ∀ s, processSpace c₁ s = processSpace c₂ s :=
    fun s => processSpace_congr c₁ c₂ s (hcon s) hdes
  induction l with
  | nil => rfl
  | cons s rest ih =>
      rw [discover_endpoints, discover_endpoints, hps s, ih]

/-- C7: processing is strictly sequential and per-identifier independent:
when iteration `s` completes without an uncaught error, the transcript of
`s :: rest` is the section of `s` followed by the whole output of `rest`
(each iteration finishes before the next begins); and the outcome of the
iteration for `s` depends only on the collaborator's responses relevant to
`s`, not on what happens for any other identifier. -/
theorem C7_sequential_and_independent {H : Type} (c c' : Collaborator H)
    (s : String) (rest : List String)
    (hdone : (processSpace c s).2 = none)
    (hcon : c'.connect s = c.connect s)
    (hdes : ∀ h, c'.describe h = c.describe h) :
    discover_endpoints c (s :: rest) =
      ((processSpace c s).1 ++ (discover_endpoints c rest).1,
        (discover_endpoints c rest).2) ∧
    processSpace c' s = processSpace c s :=
  ⟨discover_cons_completed c s rest hdone, processSpace_congr c' c s hcon hdes⟩

/-- C8: the labeled header is printed before the connection attempt, so an
identifier whose connection raises an `Exception` still gets its three
header lines, with the error line appearing right after them in the same
section. -/
theorem C8_header_printed_before_connect {H : Type} (c : Collaborator H)
    (s m : String) (hcon : c.connect s = .error (.exn m)) :
    processSpace c s =
      (["\n" ++ sepLine, "Discovering endpoints for: " ++ s, sepLine,
        errorLine s m], none) := by
  rw [processSpace_connect_exn c s m hcon]
  rfl

/-- C9: when the connection succeeds and the schema retrieval raises an
`Exception`, the section is exactly the header followed by the same fixed
wording `Failed to connect to <s>: <m>` used for a connection failure — the
output does not distinguish which phase failed. -/
theorem C9_describe_failure_same_wording {H : Type} (c : Collaborator H)
    (s m : String) (h : H) (hcon : c.connect s = .ok h)
    (hdes : c.describe h = .error (.exn m)) :
    processSpace c s = (headerLines s ++ [errorLine s m], none) ∧
    errorLine s m = "Failed to connect to " ++ s ++ ": " ++ m :=
  ⟨processSpace_describe_exn c s h m hcon hdes, rfl⟩

/-- C10: a failure outside the `Exception` class (`nonExn`, modelling e.g.
`KeyboardInterrupt`) raised while connecting or retrieving the schema is
not caught: it propagates out of the loop, and the transcript stops at the
header of the identifier that raised it — none of the remaining identifiers
is processed. -/
theorem C10_non_exception_propagates {H : Type} (c : Collaborator H)
    (s m : String) (rest : List String)
    (hf : c.connect s = .error (.nonExn m) ∨
      ∃ h, c.connect s = .ok h ∧ c.describe h = .error (.nonExn m)) :
    discover_endpoints c (s :: rest) = (headerLines s, some (.nonExn m)) := by
  have hps : processSpace c s = (headerLines s, some (.nonExn m)) := by
    cases hf with
    | inl hcon => simp [processSpace, hcon]
    | inr hex =>
        obtain ⟨h, hcon, hdes⟩ := hex
        simp [processSpace, hcon, hdes]
  unfold discover_endpoints
  rw [hps]

/-! Concrete collaborators used to instantiate the theorems above. -/

/-- A collaborator for which every space connects and describes
successfully. -/
def cGood : Collaborator String :=
  ⟨fun s => .ok s, fun h => .ok ("schema of " ++ h)⟩

/-- A syntactically different collaborator with the same responses as
`cGood`. -/
def cGood2 : Collaborator String :=
  ⟨fun s => .ok s, fun h => .ok ("schema " ++ ("of " ++ h))⟩

/-- A collaborator for which space `"A"` raises an `Exception` at
connection time and every other space succeeds. -/
def cFailA : Collaborator String :=
  ⟨fun s => if s = "A" then .error (.exn "boom") else .ok s,
    fun h => .ok ("schema of " ++ h)⟩

/-- A collaborator whose connections succeed but whose `view_api` call
raises an `Exception`. -/
def cDescFail : Collaborator String :=
  ⟨fun s => .ok s, fun _ => .error (.exn "bad schema")⟩

/-- A collaborator whose connection raises a `KeyboardInterrupt`-like
`BaseException` outside the `Exception` class. -/
def cFatal : Collaborator String :=
  ⟨fun _ => .error (.nonExn "interrupt"), fun h => .ok h⟩

theorem noFatal_cGood : noFatal cGood := by
  constructor
  · intro s m hs; simp [cGood] at hs
  · intro x m hx; simp [cGood] at hx

theorem noFatal_cFailA : noFatal cFailA := by
  constructor
  · intro s m hs
    simp only [cFailA] at hs
    split at hs <;> simp at hs
  · intro x m hx; simp [cFailA] at hx

theorem noFatal_cDescFail : noFatal cDescFail := by
  constructor
  · intro s m hs; simp [cDescFail] at hs
  · intro x m hx; simp [cDescFail] at hx

theorem C1_witness :
    errorLine "A" "boom" ∈ (discover_endpoints cFailA ["A", "B"]).1 ∧
    (discover_endpoints cFailA ["A", "B"]).1 =
      (["A", "B"].map fun t => (processSpace cFailA t).1).flatten ∧
    (discover_endpoints cFailA ["A", "B"]).2 = none :=
  C1_failure_logged_loop_continues cFailA ["A", "B"] "A" "boom"
    noFatal_cFailA (by simp) (Or.inl (by simp [cFailA]))

theorem C2_witness :
    (run cGood).1 = (spaces.map fun t => (processSpace cGood t).1).flatten ∧
    (processSpace cGood "innoai/Edge-TTS-Text-to-Speech").1.take 3 =
      headerLines "innoai/Edge-TTS-Text-to-Speech" :=
  C2_one_labeled_section_per_identifier cGood noFatal_cGood
    "innoai/Edge-TTS-Text-to-Speech" (by simp [spaces])

theorem C3_witness :
    (processSpace cGood "X").1 = headerLines "X" ++ ["schema of X"] ∧
    "schema of X" ∈ (discover_endpoints cGood ["X"]).1 :=
  C3_schema_printed_verbatim cGood ["X"] "X" "schema of X" "X"
    noFatal_cGood (by simp) rfl rfl

theorem C4_witness :
    (discover_endpoints cDescFail spaces).2 = none ∧
    exitCode cDescFail spaces = 0 :=
  C4_always_exits_zero cDescFail spaces noFatal_cDescFail

theorem C6_witness :
    discover_endpoints cGood ["A", "B"] = discover_endpoints cGood2 ["A", "B"] :=
  C6_deterministic cGood cGood2 ["A", "B"] (fun s => rfl)
    (fun h => by simp only [cGood, cGood2, ← String.append_assoc]; rfl)

theorem C7_witness :
    discover_endpoints cGood ("B" :: ["C"]) =
      ((processSpace cGood "B").1 ++ (discover_endpoints cGood ["C"]).1,
        (discover_endpoints cGood ["C"]).2) ∧
    processSpace cFailA "B" = processSpace cGood "B" :=
  C7_sequential_and_independent cGood cFailA "B" ["C"] rfl
    (by simp [cFailA, cGood]) (fun h => rfl)

theorem C8_witness :
    processSpace cFailA "A" =
      (["\n" ++ sepLine, "Discovering endpoints for: " ++ "A", sepLine,
        errorLine "A" "boom"], none) :=
  C8_header_printed_before_connect cFailA "A" "boom" (by simp [cFailA])

theorem C9_witness :
    processSpace cDescFail "A" =
      (headerLines "A" ++ [errorLine "A" "bad schema"], none) ∧
    errorLine "A" "bad schema" = "Failed to connect to " ++ "A" ++ ": " ++ "bad schema" :=
  C9_describe_failure_same_wording cDescFail "A" "bad schema" "A" rfl rfl

theorem C10_witness :
    discover_endpoints cFatal ("A" :: ["B"]) =
      (headerLines "A", some (.nonExn "interrupt")) :=
  C10_non_exception_propagates cFatal "A" "interrupt" ["B"] (Or.inl rfl)

end DiscoverApi
